import Mathlib

/-!
Shallow embedding of the `as3_parser` front-end parser core
(`src/compiler/crates/parser/src/{operator_precedence.rs, ast.rs, parser.rs}`).

Rust `Rc<T>` is modelled as a plain `T` (immutability of the AST makes the
sharing observationally irrelevant), `Vec<T>` as `List T`, `Option<T>` as
`Option T`, `f64` payloads as `Float` (they are only moved around, never
computed with), `u32` discriminants as `Nat`.

The tokenizer, the `Location` constructor helpers, the `Token` enumeration and
the diagnostics types live outside the given sources; they are modelled from
the specification's external-interface contracts (§4.1, §6, §7) and are marked
`Modelled from the spec:` in their doc comments.  Mutable state (`&mut self`)
is modelled as explicit state passing: each parser operation takes a
`Parser σ` and returns the updated `Parser σ` together with its
`Except ParserFailure` result, exactly mirroring the order of the Rust
assignments.  The per-source diagnostics sink (reached through
`Rc<Source>` interior mutability in Rust) is modelled as the `diagnostics`
field of the parser state; the parser only ever appends to it.

One representation choice in the AST: the Rust AST is a single mutually
recursive family of ~60 types, whose only cycle through the statement side
runs `FunctionCommon.body` → `FunctionBody::Block` → `Block` →
`Directive` → (statements/definitions) → back into expressions.  Embedding
that family whole is out of the kernel's budget here, so the directive
type at `Rc<Directive>` positions is abstracted as a type parameter `δ`:
every AST type keeps its exact field-for-field shape over `δ`, and
`Directive δ` is the one-level unfolding of the knot.  No claim mentions
the statement side, so nothing proved depends on how (or whether) the knot
is tied.
-/

namespace As3

/-- Modelled from the spec: the `Location` contract of §6,
`{ source, line, first_offset, last_offset }`.  The back-pointer to the
source unit is omitted: the diagnostics sink it carries is modelled
directly on the parser state. -/
structure Location where
  line : Nat
  first_offset : Nat
  last_offset : Nat
deriving DecidableEq, Repr

/-- Modelled from the spec: `Location::with_line_and_offset(&source, line, offset)`
used by `Parser::new`, producing an empty span at the given line and offset. -/
def Location.with_line_and_offset (line offset : Nat) : Location :=
  { line := line, first_offset := offset, last_offset := offset }

/-- The opaque parse-failure signal `ParserFailure` (a unit struct in Rust). -/
structure ParserFailure where
deriving DecidableEq, Repr

/-- Modelled from the spec: the token enumeration produced by the tokenizer.
Only the variants named by `parser.rs` are enumerated (`Eof`, `Identifier`,
the `>`-family compound tokens and `=`), plus a `Keyword` variant carrying
the identifier-equivalent spelling of a reserved word (§4.2:
"any keyword whose reserved word carries an identifier-equivalent spelling",
queried through `Token::keyword_name`), plus a representative ordinary
punctuator `Comma` so that "any other token" cases are inhabited. -/
inductive Token where
  | Eof
  | Identifier (id : String)
  | Keyword (spelling : String)
  | Gt
  | Ge
  | Assign
  | RightShift
  | RightShiftAssign
  | UnsignedRightShift
  | UnsignedRightShiftAssign
  | Comma
deriving DecidableEq, Repr

/-- Modelled from the spec: `Token::keyword_name()` yields the
identifier-equivalent spelling of a reserved-word token, and nothing for
any other token. -/
def Token.keyword_name : Token → Option String
  | Token.Keyword spelling => some spelling
  | _ => none

/-- Modelled from the spec: the diagnostic-kind taxonomy of §7. -/
inductive DiagnosticKind where
  | Expected
  | ExpectedIdentifier
  | ExpectedKeyword
  | MismatchedXmlClosingTag
  | InvalidDestructuringTarget
deriving DecidableEq, Repr

/-- Modelled from the spec: the typed diagnostic arguments of §4.8
("expected token, expected literal string, or actual token"); matches the
`diagnostic_arguments![Token(..), String(..)]` constructors used in
`parser.rs`. -/
inductive DiagnosticArgument where
  | Token (t : Token)
  | String (s : String)
deriving DecidableEq, Repr

/-- Modelled from the spec: diagnostic severity (§6: syntax-error or warning). -/
inductive DiagnosticSeverity where
  | SyntaxError
  | Warning
deriving DecidableEq, Repr

/-- Modelled from the spec: a diagnostic record
`{ location, severity, kind, ordered typed arguments }` (§6). -/
structure Diagnostic where
  location : Location
  severity : DiagnosticSeverity
  kind : DiagnosticKind
  arguments : List DiagnosticArgument
deriving DecidableEq, Repr

/-- Modelled from the spec: `Diagnostic::new_syntax_error(location, kind, arguments)`. -/
def Diagnostic.new_syntax_error (location : Location) (kind : DiagnosticKind)
    (arguments : List DiagnosticArgument) : Diagnostic :=
  { location := location, severity := DiagnosticSeverity.SyntaxError,
    kind := kind, arguments := arguments }

/-- `OperatorPrecedence` (operator_precedence.rs): 17 levels with fixed
`u32` discriminants, `Postfix = 17` down to `List = 1`. -/
inductive OperatorPrecedence where
  | Postfix
  | Unary
  | Exponentiation
  | Multiplicative
  | Additive
  | Shift
  | Relational
  | Equality
  | BitwiseAnd
  | BitwiseXor
  | BitwiseOr
  | LogicalAnd
  | LogicalOr
  | LogicalXor
  | LogicalOrAndOther
  | AssignmentAndOther
  | List
deriving DecidableEq, Repr

/-- The `u32` discriminant of each `OperatorPrecedence` variant
(`*self as u32` in Rust). -/
def OperatorPrecedence.toU32 : OperatorPrecedence → Nat
  | OperatorPrecedence.Postfix => 17
  | OperatorPrecedence.Unary => 16
  | OperatorPrecedence.Exponentiation => 15
  | OperatorPrecedence.Multiplicative => 14
  | OperatorPrecedence.Additive => 13
  | OperatorPrecedence.Shift => 12
  | OperatorPrecedence.Relational => 11
  | OperatorPrecedence.Equality => 10
  | OperatorPrecedence.BitwiseAnd => 9
  | OperatorPrecedence.BitwiseXor => 8
  | OperatorPrecedence.BitwiseOr => 7
  | OperatorPrecedence.LogicalAnd => 6
  | OperatorPrecedence.LogicalOr => 5
  | OperatorPrecedence.LogicalXor => 4
  | OperatorPrecedence.LogicalOrAndOther => 3
  | OperatorPrecedence.AssignmentAndOther => 2
  | OperatorPrecedence.List => 1

/-- `FromPrimitive::from_u32` as generated by the `#[derive(FromPrimitive)]`
on `OperatorPrecedence`: the variant with the given discriminant, if any. -/
def OperatorPrecedence.from_u32 : Nat → Option OperatorPrecedence
  | 17 => some OperatorPrecedence.Postfix
  | 16 => some OperatorPrecedence.Unary
  | 15 => some OperatorPrecedence.Exponentiation
  | 14 => some OperatorPrecedence.Multiplicative
  | 13 => some OperatorPrecedence.Additive
  | 12 => some OperatorPrecedence.Shift
  | 11 => some OperatorPrecedence.Relational
  | 10 => some OperatorPrecedence.Equality
  | 9 => some OperatorPrecedence.BitwiseAnd
  | 8 => some OperatorPrecedence.BitwiseXor
  | 7 => some OperatorPrecedence.BitwiseOr
  | 6 => some OperatorPrecedence.LogicalAnd
  | 5 => some OperatorPrecedence.LogicalOr
  | 4 => some OperatorPrecedence.LogicalXor
  | 3 => some OperatorPrecedence.LogicalOrAndOther
  | 2 => some OperatorPrecedence.AssignmentAndOther
  | 1 => some OperatorPrecedence.List
  | _ => none

/-- `OperatorPrecedence::add_one`:
`FromPrimitive::from_u32(*self as u32 - 1)` (operator_precedence.rs:31-33).
Note the body subtracts one from the discriminant. -/
def OperatorPrecedence.add_one (self : OperatorPrecedence) : Option OperatorPrecedence :=
  OperatorPrecedence.from_u32 (self.toU32 - 1)

/-- `FunctionParamKind` (ast.rs): `Required = 1`, `Optional = 2`, `Rest = 3`. -/
inductive FunctionParamKind where
  | Required
  | Optional
  | Rest
deriving DecidableEq, Repr

/-- The `u32` discriminant of each `FunctionParamKind` variant. -/
def FunctionParamKind.toU32 : FunctionParamKind → Nat
  | FunctionParamKind.Required => 1
  | FunctionParamKind.Optional => 2
  | FunctionParamKind.Rest => 3

/-- `FunctionParamKind::may_be_followed_by(&self, other)`:
`(*self as u32) <= (other as u32)` (ast.rs:364-366). -/
def FunctionParamKind.may_be_followed_by (self other : FunctionParamKind) : Bool :=
  self.toU32 ≤ other.toU32

/-- Modelled from the spec: the tokenizer's external contract (§4.1, §6):
three fallible scanning operations over an abstract tokenizer state `σ`.
`&mut self` is modelled by returning the successor state alongside the
result, in the error case too. -/
structure TokenizerModel (σ : Type) where
  scan_ie_div : σ → Bool → Except ParserFailure (Token × Location) × σ
  scan_ie_xml_tag : σ → Except ParserFailure (Token × Location) × σ
  scan_ie_xml_content : σ → Except ParserFailure (Token × Location) × σ

/-- `Parser` (parser.rs:4-8): the tokenizer, the two token-cursor slots
`previous_token` and `token`, and (standing in for the `Rc<Source>`
diagnostics sink reached through `self.source()`) the append-only list of
diagnostics the parser has written. -/
structure Parser (σ : Type) where
  tokenizer : σ
  previous_token : Token × Location
  token : Token × Location
  diagnostics : List Diagnostic
deriving DecidableEq

/-- `Parser::new(source)` (parser.rs:12-18): both cursor slots start as
`(Token::Eof, Location::with_line_and_offset(&source, 1, 0))`; the given
tokenizer state (`Tokenizer::new(source)`) is stored untouched; nothing is
scanned.  The sink is the source's, taken over empty here. -/
def Parser.new (σ : Type) (tokenizer : σ) : Parser σ :=
  { tokenizer := tokenizer,
    previous_token := (Token.Eof, Location.with_line_and_offset 1 0),
    token := (Token.Eof, Location.with_line_and_offset 1 0),
    diagnostics := [] }

/-- `Parser::add_syntax_error` (parser.rs:24-26): append one syntax-error
diagnostic to the source's sink. -/
def Parser.add_syntax_error {σ : Type} (self : Parser σ) (location : Location)
    (kind : DiagnosticKind) (arguments : List DiagnosticArgument) : Parser σ :=
  { self with diagnostics :=
      self.diagnostics ++ [Diagnostic.new_syntax_error location kind arguments] }

/-- `Parser::next(reserved_words)` (parser.rs:32-36):
`self.previous_token = self.token.clone();`
`self.token = self.tokenizer.scan_ie_div(reserved_words)?;`.
The previous slot is overwritten before the scan, so it is updated even
when the scan fails. -/
def Parser.next {σ : Type} (M : TokenizerModel σ) (reserved_words : Bool)
    (self : Parser σ) : Parser σ × Except ParserFailure Unit :=
  let p1 := { self with previous_token := self.token }
  match M.scan_ie_div p1.tokenizer reserved_words with
  | (Except.error e, ts) => ({ p1 with tokenizer := ts }, Except.error e)
  | (Except.ok tok, ts) => ({ p1 with tokenizer := ts, token := tok }, Except.ok ())

/-- `Parser::next_ie_xml_tag` (parser.rs:38-42). -/
def Parser.next_ie_xml_tag {σ : Type} (M : TokenizerModel σ)
    (self : Parser σ) : Parser σ × Except ParserFailure Unit :=
  let p1 := { self with previous_token := self.token }
  match M.scan_ie_xml_tag p1.tokenizer with
  | (Except.error e, ts) => ({ p1 with tokenizer := ts }, Except.error e)
  | (Except.ok tok, ts) => ({ p1 with tokenizer := ts, token := tok }, Except.ok ())

/-- `Parser::next_ie_xml_content` (parser.rs:44-48). -/
def Parser.next_ie_xml_content {σ : Type} (M : TokenizerModel σ)
    (self : Parser σ) : Parser σ × Except ParserFailure Unit :=
  let p1 := { self with previous_token := self.token }
  match M.scan_ie_xml_content p1.tokenizer with
  | (Except.error e, ts) => ({ p1 with tokenizer := ts }, Except.error e)
  | (Except.ok tok, ts) => ({ p1 with tokenizer := ts, token := tok }, Except.ok ())

/-- `Parser::consume(token)` (parser.rs:50-57). -/
def Parser.consume {σ : Type} (M : TokenizerModel σ) (token : Token)
    (self : Parser σ) : Parser σ × Except ParserFailure Bool :=
  if self.token.fst = token then
    match Parser.next M true self with
    | (p1, Except.ok ()) => (p1, Except.ok true)
    | (p1, Except.error e) => (p1, Except.error e)
  else
    (self, Except.ok false)

/-- `Parser::consume_identifier(reserved_words)` (parser.rs:59-74). -/
def Parser.consume_identifier {σ : Type} (M : TokenizerModel σ) (reserved_words : Bool)
    (self : Parser σ) : Parser σ × Except ParserFailure (Option (String × Location)) :=
  match self.token.fst with
  | Token.Identifier id =>
    let location := self.token.snd
    match Parser.next M true self with
    | (p1, Except.ok ()) => (p1, Except.ok (some (id, location)))
    | (p1, Except.error e) => (p1, Except.error e)
  | _ =>
    if reserved_words then
      match Token.keyword_name self.token.fst with
      | some id =>
        let location := self.token.snd
        match Parser.next M true self with
        | (p1, Except.ok ()) => (p1, Except.ok (some (id, location)))
        | (p1, Except.error e) => (p1, Except.error e)
      | none => (self, Except.ok none)
    else
      (self, Except.ok none)

/-- `Parser::consume_context_keyword(name)` (parser.rs:76-87). -/
def Parser.consume_context_keyword {σ : Type} (M : TokenizerModel σ) (name : String)
    (self : Parser σ) : Parser σ × Except ParserFailure Bool :=
  match self.token.fst with
  | Token.Identifier id =>
    if id = name then
      match Parser.next M true self with
      | (p1, Except.ok ()) => (p1, Except.ok true)
      | (p1, Except.error e) => (p1, Except.error e)
    else
      (self, Except.ok false)
  | _ => (self, Except.ok false)

/-- `Parser::expect(token)` (parser.rs:89-97): on mismatch, record
`Expected` with arguments `[Token(wanted), Token(actual)]` at the current
token's location and fail; on match, advance. -/
def Parser.expect {σ : Type} (M : TokenizerModel σ) (token : Token)
    (self : Parser σ) : Parser σ × Except ParserFailure Unit :=
  if self.token.fst ≠ token then
    (Parser.add_syntax_error self self.token.snd DiagnosticKind.Expected
       [DiagnosticArgument.Token token, DiagnosticArgument.Token self.token.fst],
     Except.error ParserFailure.mk)
  else
    Parser.next M true self

/-- `Parser::expect_identifier(reserved_words)` (parser.rs:99-115). -/
def Parser.expect_identifier {σ : Type} (M : TokenizerModel σ) (reserved_words : Bool)
    (self : Parser σ) : Parser σ × Except ParserFailure (String × Location) :=
  match self.token.fst with
  | Token.Identifier id =>
    let location := self.token.snd
    match Parser.next M true self with
    | (p1, Except.ok ()) => (p1, Except.ok (id, location))
    | (p1, Except.error e) => (p1, Except.error e)
  | _ =>
    match reserved_words, Token.keyword_name self.token.fst with
    | true, some id =>
      let location := self.token.snd
      match Parser.next M true self with
      | (p1, Except.ok ()) => (p1, Except.ok (id, location))
      | (p1, Except.error e) => (p1, Except.error e)
    | _, _ =>
      (Parser.add_syntax_error self self.token.snd DiagnosticKind.ExpectedIdentifier
         [DiagnosticArgument.Token self.token.fst],
       Except.error ParserFailure.mk)

/-- `Parser::expect_context_keyword(name)` (parser.rs:117-126): on an
identifier spelled `name`, advance; otherwise record `Expected` with
arguments `[String(name), Token(actual)]` and fail. -/
def Parser.expect_context_keyword {σ : Type} (M : TokenizerModel σ) (name : String)
    (self : Parser σ) : Parser σ × Except ParserFailure Unit :=
  match self.token.fst with
  | Token.Identifier id =>
    if id = name then
      Parser.next M true self
    else
      (Parser.add_syntax_error self self.token.snd DiagnosticKind.Expected
         [DiagnosticArgument.String name, DiagnosticArgument.Token self.token.fst],
       Except.error ParserFailure.mk)
  | _ =>
    (Parser.add_syntax_error self self.token.snd DiagnosticKind.Expected
       [DiagnosticArgument.String name, DiagnosticArgument.Token self.token.fst],
     Except.error ParserFailure.mk)

/-- `Parser::expect_generics_gt` (parser.rs:131-166): a lone `>` is consumed
normally; each compound token starting with `>` is replaced in place by its
remainder with `first_offset` incremented; anything else goes through
`expect(Token::Gt)`. -/
def Parser.expect_generics_gt {σ : Type} (M : TokenizerModel σ)
    (self : Parser σ) : Parser σ × Except ParserFailure Unit :=
  match self.token.fst with
  | Token.Gt => Parser.next M true self
  | Token.Ge =>
    ({ self with token := (Token.Assign,
         { self.token.snd with first_offset := self.token.snd.first_offset + 1 }) },
     Except.ok ())
  | Token.RightShift =>
    ({ self with token := (Token.Gt,
         { self.token.snd with first_offset := self.token.snd.first_offset + 1 }) },
     Except.ok ())
  | Token.RightShiftAssign =>
    ({ self with token := (Token.Ge,
         { self.token.snd with first_offset := self.token.snd.first_offset + 1 }) },
     Except.ok ())
  | Token.UnsignedRightShift =>
    ({ self with token := (Token.RightShift,
         { self.token.snd with first_offset := self.token.snd.first_offset + 1 }) },
     Except.ok ())
  | Token.UnsignedRightShiftAssign =>
    ({ self with token := (Token.RightShiftAssign,
         { self.token.snd with first_offset := self.token.snd.first_offset + 1 }) },
     Except.ok ())
  | _ => Parser.expect M Token.Gt self

/-- `Parser::expect_eof` (parser.rs:168-170). -/
def Parser.expect_eof {σ : Type} (M : TokenizerModel σ)
    (self : Parser σ) : Parser σ × Except ParserFailure Unit :=
  Parser.expect M Token.Eof self

/-- A concrete tokenizer instance for evaluating the model: the state is a
list of pending (token, location) pairs; scanning pops the head and yields
`Eof` at line 1 offset 0 once exhausted.  Used only to instantiate the
abstract `TokenizerModel` in closed evaluations. -/
def listScan : List (Token × Location) → Except ParserFailure (Token × Location) × List (Token × Location)
  | [] => (Except.ok (Token.Eof, Location.with_line_and_offset 1 0), [])
  | t :: ts => (Except.ok t, ts)

/-- The `TokenizerModel` built from `listScan` (all three modes behave alike). -/
def listTok : TokenizerModel (List (Token × Location)) :=
  { scan_ie_div := fun s _ => listScan s,
    scan_ie_xml_tag := listScan,
    scan_ie_xml_content := listScan }

/-- Modelled from the spec: the unary/binary/compound-assignment operator
enumeration referenced by `ast.rs` (`Operator`); its variants live outside
the given sources and no claim inspects them, so it is represented by an
abstract numeric code. -/
inductive Operator where
  | mk (code : Nat)

/-- `ReservedNamespace` (ast.rs:209-214). -/
inductive ReservedNamespace where
  | Public
  | Private
  | Protected
  | Internal

/-- `VariableKind` (ast.rs:503-506). -/
inductive VariableKind where
  | Var
  | Const

/-- `RecordTypeKeySuffix` (ast.rs:379-383). -/
inductive RecordTypeKeySuffix where
  | None
  | NonNullable
  | Nullable

/-- `ImportItem` (ast.rs:607-612). -/
inductive ImportItem where
  | Wildcard
  | Recursive
  | Name (name : String)

/-- `ImportDirective` (ast.rs:600-604). -/
structure ImportDirective where
  «alias» : Option (String × Location)
  package_name : List (String × Location)
  import_item : ImportItem × Location

/-- `MetadataEntry` (ast.rs:692-695). -/
structure MetadataEntry where
  key : Option (String × Location)
  value : String × Location

/-- `DefinitionModifiersFlags` (ast.rs:671-680): a `bitflags` set over `u32`. -/
structure DefinitionModifiersFlags where
  bits : Nat

/-- The `OVERRIDE` flag bit. -/
def DefinitionModifiersFlags.OVERRIDE : Nat := 1
/-- The `FINAL` flag bit. -/
def DefinitionModifiersFlags.FINAL : Nat := 2
/-- The `DYNAMIC` flag bit. -/
def DefinitionModifiersFlags.DYNAMIC : Nat := 4
/-- The `NATIVE` flag bit. -/
def DefinitionModifiersFlags.NATIVE : Nat := 8
/-- The `STATIC` flag bit. -/
def DefinitionModifiersFlags.STATIC : Nat := 16

/-- `FunctionFlags` (ast.rs:737-743): a `bitflags` set over `u32`. -/
structure FunctionFlags where
  bits : Nat

/-- The `AWAIT` flag bit. -/
def FunctionFlags.AWAIT : Nat := 1
/-- The `YIELD` flag bit. -/
def FunctionFlags.YIELD : Nat := 2

/-- `Block` (ast.rs:520-521): `pub struct Block(pub Vec<Rc<Directive>>)`,
over the abstract directive type `δ`. -/
inductive Block (δ : Type) where
  | mk (directives : List δ)

set_option maxHeartbeats 0

mutual

/-- `Expression` (ast.rs:37-41). -/
inductive Expression (δ : Type) where
  | mk (location : Location) (kind : ExpressionKind δ)

/-- `ExpressionKind` (ast.rs:43-165). -/
inductive ExpressionKind (δ : Type) where
  | Null
  | Boolean (value : Bool)
  | Numeric (value : Float)
  | String (value : String)
  | This
  | RegExp (body : String) (flags : String)
  | Id (id : QualifiedIdentifier δ)
  | XmlMarkup (source : String)
  | XmlElement (element : XmlElement δ)
  | XmlList (content : List (XmlElementContent δ))
  | ReservedNamespace (ns : ReservedNamespace)
  | EmptyParen
  | Paren (expression : Expression δ)
  | Rest (expression : Expression δ)
  | ArrayInitializer (elements : List (Option (Expression δ)))
  | VectorInitializer (element_type : TypeExpression δ) (elements : List (Expression δ))
  | ObjectInitializer (fields : List (ObjectField δ))
  | Function (name : Option (String × Location)) (common : FunctionCommon δ)
  | ArrowFunction (common : FunctionCommon δ)
  | Super (arguments : Option (List (Expression δ)))
  | New (base : Expression δ) (arguments : Option (List (Expression δ)))
  | DotMember (base : Expression δ) (id : QualifiedIdentifier δ)
  | BracketsMember (base : Expression δ) (key : Expression δ)
  | WithTypeArguments (base : Expression δ) (arguments : List (Expression δ))
  | Filter (base : Expression δ) (condition : Expression δ)
  | Descendants (base : Expression δ) (id : QualifiedIdentifier δ)
  | Call (base : Expression δ) (arguments : List (Expression δ))
  | Unary (base : Expression δ) (operator : Operator)
  | Binary (left : Expression δ) (operator : Operator) (right : Expression δ)
  | Conditional (test : Expression δ) (consequent : Expression δ)
                (alternative : Expression δ)
  | Assignment (left : Destructuring δ) (compound : Option Operator)
               (right : Expression δ)
  | Sequence (left : Expression δ) (right : Expression δ)
  | WithTypeAnnotation (base : Expression δ) ( type_annotation : TypeExpression δ)
  | Embed (source : String) ( type_annotation : Option (TypeExpression δ))
  | OptionalChaining (base : Expression δ) (operations : Expression δ)
  | OptionalChainingHost

/-- `XmlElementContent` (ast.rs:167-173). -/
inductive XmlElementContent (δ : Type) where
  | Expression (expression : Expression δ)
  | Markup (source : String) (location : Location)
  | Text (text : String) (location : Location)
  | Element (element : XmlElement δ)

/-- `XmlElement` (ast.rs:175-182). -/
inductive XmlElement (δ : Type) where
  | mk (location : Location) (opening_tag_name : XmlTagName δ)
       (attributes : List (XmlAttributeOrExpression δ))
       (content : List (XmlElementContent δ))
       (closing_tag_name : Option (XmlTagName δ))

/-- `XmlTagName` (ast.rs:184-188). -/
inductive XmlTagName (δ : Type) where
  | Name (name : String × Location)
  | Expression (expression : Expression δ)

/-- `XmlAttributeOrExpression` (ast.rs:190-194). -/
inductive XmlAttributeOrExpression (δ : Type) where
  | Attribute («attribute» : XmlAttribute δ)
  | Expression (expression : Expression δ)

/-- `XmlAttribute` (ast.rs:196-200). -/
inductive XmlAttribute (δ : Type) where
  | mk (name : String × Location) (value : XmlAttributeValueOrExpression δ)

/-- `XmlAttributeValueOrExpression` (ast.rs:202-206). -/
inductive XmlAttributeValueOrExpression (δ : Type) where
  | Value (value : String)
  | Expression (expression : Expression δ)

/-- `QualifiedIdentifier` (ast.rs:5-10):
`{ attribute: bool, qualifier: Option<Rc<Expression>>, name: IdentifierOrBrackets }`. -/
inductive QualifiedIdentifier (δ : Type) where
  | mk («attribute» : Bool) (qualifier : Option (Expression δ))
       (name : IdentifierOrBrackets δ)

/-- `NonAttributeQualifiedIdentifier` (ast.rs:25-29). -/
inductive NonAttributeQualifiedIdentifier (δ : Type) where
  | mk (qualifier : Option (Expression δ)) (name : IdentifierOrBrackets δ)

/-- `IdentifierOrBrackets` (ast.rs:31-35). -/
inductive IdentifierOrBrackets (δ : Type) where
  | Id (id : String) (location : Location)
  | Brackets (expression : Expression δ)

/-- `ObjectField` (ast.rs:216-228). -/
inductive ObjectField (δ : Type) where
  | Field (key : ObjectKey δ × Location) (destructuring_non_null : Bool)
          (value : Option (Expression δ))
  | Rest (expression : Expression δ) (location : Location)

/-- `ObjectKey` (ast.rs:245-251). -/
inductive ObjectKey (δ : Type) where
  | Id (id : NonAttributeQualifiedIdentifier δ)
  | String (string : String) (location : Location)
  | Number (number : Float) (location : Location)
  | Brackets (expression : Expression δ)

/-- `Destructuring` (ast.rs:264-273). -/
inductive Destructuring (δ : Type) where
  | mk (location : Location) (kind : DestructuringKind δ) (non_null : Bool)
       ( type_annotation : Option (TypeExpression δ))

/-- `DestructuringKind` (ast.rs:275-282). -/
inductive DestructuringKind (δ : Type) where
  | Binding (name : String × Location)
  | Record (fields : List (RecordDestructuringField δ))
  | Array (items : List (Option (ArrayDestructuringItem δ)))

/-- `RecordDestructuringField` (ast.rs:284-290). -/
inductive RecordDestructuringField (δ : Type) where
  | mk (location : Location) (key : RecordDestructuringKey δ × Location)
       (non_null : Bool) («alias» : Option (Destructuring δ))

/-- `RecordDestructuringKey` (ast.rs:292-298). -/
inductive RecordDestructuringKey (δ : Type) where
  | Id (id : NonAttributeQualifiedIdentifier δ)
  | String (string : String) (location : Location)
  | Number (number : Float) (location : Location)
  | Brackets (expression : Expression δ)

/-- `ArrayDestructuringItem` (ast.rs:300-304). -/
inductive ArrayDestructuringItem (δ : Type) where
  | Pattern (pattern : Destructuring δ)
  | Rest (pattern : Destructuring δ) (location : Location)

/-- `TypeExpression` (ast.rs:306-310). -/
inductive TypeExpression (δ : Type) where
  | mk (location : Location) (kind : TypeExpressionKind δ)

/-- `TypeExpressionKind` (ast.rs:312-346). -/
inductive TypeExpressionKind (δ : Type) where
  | Id (id : QualifiedIdentifier δ)
  | DotMember (base : TypeExpression δ) (member : QualifiedIdentifier δ)
  | Tuple (elements : List (TypeExpression δ))
  | Record (fields : List (RecordTypeField δ))
  | Any
  | Void
  | Never
  | Undefined
  | Nullable (base : TypeExpression δ)
  | NonNullable (base : TypeExpression δ)
  | Function (params : List (FunctionTypeParam δ))
             ( return_annotation : TypeExpression δ)
  | StringLiteral (value : String)
  | NumberLiteral (value : Float)
  | Union (members : List (TypeExpression δ))
  | Complement (base : TypeExpression δ) (complement : TypeExpression δ)
  | WithTypeArguments (base : TypeExpression δ) (arguments : List (TypeExpression δ))

/-- `FunctionTypeParam` (ast.rs:348-353). -/
inductive FunctionTypeParam (δ : Type) where
  | mk (kind : FunctionParamKind) (name : String × Location)
       ( type_annotation : Option (TypeExpression δ))

/-- `RecordTypeField` (ast.rs:369-376). -/
inductive RecordTypeField (δ : Type) where
  | mk (asdoc : Option (AsDoc δ)) (readonly : Bool) (key : RecordTypeKey δ × Location)
       (key_suffix : RecordTypeKeySuffix) ( type_annotation : Option (TypeExpression δ))

/-- `RecordTypeKey` (ast.rs:385-391). -/
inductive RecordTypeKey (δ : Type) where
  | Id (id : NonAttributeQualifiedIdentifier δ)
  | String (string : String) (location : Location)
  | Number (number : Float) (location : Location)
  | Brackets (expression : Expression δ)

/-- `VariableBinding` (ast.rs:496-500). -/
inductive VariableBinding (δ : Type) where
  | mk (pattern : Destructuring δ) (init : Option (Expression δ))

/-- `FunctionCommon` (ast.rs:722-728). -/
inductive FunctionCommon (δ : Type) where
  | mk (flags : FunctionFlags) (params : List (FunctionParam δ))
       ( return_annotation : Option (TypeExpression δ)) (body : Option (FunctionBody δ))

/-- `FunctionParam` (ast.rs:730-735). -/
inductive FunctionParam (δ : Type) where
  | mk (location : Location) (kind : FunctionParamKind) (binding : VariableBinding δ)

/-- `FunctionBody` (ast.rs:745-751). -/
inductive FunctionBody (δ : Type) where
  | Block (block : Block δ)
  | Expression (expression : Expression δ)

/-- `AsDoc` (ast.rs:753-757). -/
inductive AsDoc (δ : Type) where
  | mk (main_body : String) (tags : List (AsDocTag δ))

/-- `AsDocTag` (ast.rs:759-782). -/
inductive AsDocTag (δ : Type) where
  | Copy (reference : String)
  | Default (value : String)
  | EventType (t : TypeExpression δ)
  | Example (text : String)
  | ExampleText (text : String)
  | InheritDoc
  | Internal (text : String)
  | Param (name : String) (description : String)
  | Private
  | Return (description : String)
  | See (reference : String) (display_text : Option String)
  | Throws (class_name : TypeExpression δ) (description : Option String)

end

/-- `SimpleVariableDeclaration` (ast.rs:490-494). -/
structure SimpleVariableDeclaration (δ : Type) where
  kind : VariableKind × Location
  bindings : List (VariableBinding δ)

/-- `CatchClause` (ast.rs:467-471). -/
structure CatchClause (δ : Type) where
  pattern : Destructuring δ
  block : Block δ

/-- `FinallyClause` (ast.rs:473-476). -/
structure FinallyClause (δ : Type) where
  block : Block δ

/-- `ForInit` (ast.rs:478-482). -/
inductive ForInit (δ : Type) where
  | Variable (declaration : SimpleVariableDeclaration δ)
  | Expression (expression : Expression δ)

/-- `ForInLeft` (ast.rs:484-488). -/
inductive ForInLeft (δ : Type) where
  | Variable (declaration : SimpleVariableDeclaration δ)
  | Expression (expression : Expression δ)

/-- `SwitchCase` (ast.rs:508-512): `consequent` is a directive list. -/
structure SwitchCase (δ : Type) where
  test : Option (Expression δ)
  consequent : List δ

/-- `SwitchTypeCase` (ast.rs:514-518). -/
structure SwitchTypeCase (δ : Type) where
  pattern : Destructuring δ
  block : Block δ

mutual

/-- `Statement` (ast.rs:393-397). -/
inductive Statement (δ : Type) where
  | mk (location : Location) (kind : StatementKind δ)

/-- `StatementKind` (ast.rs:399-465). -/
inductive StatementKind (δ : Type) where
  | Empty
  | Super (arguments : List (Expression δ))
  | Block (block : Block δ)
  | If (condition : Expression δ) (consequent : Statement δ)
       (alternative : Option (Statement δ))
  | Switch (discriminant : Expression δ) (cases : List (SwitchCase δ))
  | SwitchType (discriminant : Expression δ) (cases : List (SwitchTypeCase δ))
  | Do (body : Statement δ) (test : Expression δ)
  | While (test : Expression δ) (body : Statement δ)
  | For (init : Option (ForInit δ)) (test : Option (Expression δ))
        (update : Option (Expression δ)) (body : Statement δ)
  | ForIn (each : Bool) (left : ForInLeft δ) (right : Expression δ)
          (body : Statement δ)
  | With (object : Expression δ) (body : Statement δ)
  | Continue (label : Option String)
  | Break (label : Option String)
  | Return (expression : Option (Expression δ))
  | Throw (expression : Expression δ)
  | Try (block : Block δ) (catch_clauses : List (CatchClause δ))
        (finally_clause : FinallyClause δ)
  | Expression (expression : Expression δ)
  | Labeled (label : String × Location) (statement : Statement δ)
  | DefaultXmlNamespace (expression : Expression δ)
  | SimpleVariableDeclaration (declaration : SimpleVariableDeclaration δ)

end

/-- `Metadata` (ast.rs:682-689). -/
structure Metadata (δ : Type) where
  asdoc : Option (AsDoc δ)
  location : Location
  name : String × Location
  entries : List MetadataEntry

/-- `DefinitionAnnotations` (ast.rs:664-669). -/
structure DefinitionAnnotations (δ : Type) where
  metadata : List (Metadata δ)
  flag_modifiers : DefinitionModifiersFlags
  access_modifier : Option (Expression δ)

/-- `GenericParam` (ast.rs:703-709). -/
structure GenericParam (δ : Type) where
  location : Location
  name : String × Location
  constraints : List (TypeExpression δ)
  default_type : Option (TypeExpression δ)

/-- `GenericsWhereConstraint` (ast.rs:716-720). -/
structure GenericsWhereConstraint (δ : Type) where
  name : String × Location
  constraint : TypeExpression δ

/-- `GenericsWhere` (ast.rs:711-714). -/
structure GenericsWhere (δ : Type) where
  constraints : List (GenericsWhereConstraint δ)

/-- `Generics` (ast.rs:697-701). -/
structure Generics (δ : Type) where
  params : Option (List (GenericParam δ))
  where_clause : Option (GenericsWhere δ)

/-- `ClassDefinition` (ast.rs:547-556). -/
structure ClassDefinition (δ : Type) where
  asdoc : Option (AsDoc δ)
  annotations : DefinitionAnnotations δ
  name : String × Location
  generics : Generics δ
  extends_clause : Option (TypeExpression δ)
  implements_clause : Option (List (TypeExpression δ))
  block : Block δ

/-- `InterfaceDefinition` (ast.rs:558-566). -/
structure InterfaceDefinition (δ : Type) where
  asdoc : Option (AsDoc δ)
  annotations : DefinitionAnnotations δ
  name : String × Location
  generics : Generics δ
  extends_clause : Option (List (TypeExpression δ))
  block : Block δ

/-- `EnumDefinition` (ast.rs:568-574). -/
structure EnumDefinition (δ : Type) where
  asdoc : Option (AsDoc δ)
  annotations : DefinitionAnnotations δ
  name : String × Location
  block : Block δ

/-- `NamespaceDefinition` (ast.rs:576-582). -/
structure NamespaceDefinition (δ : Type) where
  asdoc : Option (AsDoc δ)
  annotations : DefinitionAnnotations δ
  left : String × Location
  right : Option (Expression δ)

/-- `VariableDefinition` (ast.rs:614-620). -/
structure VariableDefinition (δ : Type) where
  asdoc : Option (AsDoc δ)
  annotations : DefinitionAnnotations δ
  kind : VariableKind
  bindings : List (VariableBinding δ)

/-- `FunctionDefinition` (ast.rs:622-629). -/
structure FunctionDefinition (δ : Type) where
  asdoc : Option (AsDoc δ)
  annotations : DefinitionAnnotations δ
  name : String × Location
  generics : Generics δ
  common : FunctionCommon δ

/-- `ConstructorDefinition` (ast.rs:631-637). -/
structure ConstructorDefinition (δ : Type) where
  asdoc : Option (AsDoc δ)
  annotations : DefinitionAnnotations δ
  name : String × Location
  common : FunctionCommon δ

/-- `GetterDefinition` (ast.rs:639-645). -/
structure GetterDefinition (δ : Type) where
  asdoc : Option (AsDoc δ)
  annotations : DefinitionAnnotations δ
  name : String × Location
  common : FunctionCommon δ

/-- `SetterDefinition` (ast.rs:647-653). -/
structure SetterDefinition (δ : Type) where
  asdoc : Option (AsDoc δ)
  annotations : DefinitionAnnotations δ
  name : String × Location
  common : FunctionCommon δ

/-- `TypeDefinition` (ast.rs:655-662). -/
structure TypeDefinition (δ : Type) where
  asdoc : Option (AsDoc δ)
  annotations : DefinitionAnnotations δ
  left : String × Location
  generics : Generics δ
  right : TypeExpression δ

/-- `IncludeDirective` (ast.rs:584-588): `replaced_by` is a directive list. -/
structure IncludeDirective (δ : Type) where
  source : String
  replaced_by : List δ

/-- `DirectiveKind` (ast.rs:529-545). -/
inductive DirectiveKind (δ : Type) where
  | Statement (statement : Statement δ)
  | Include (directive : IncludeDirective δ)
  | Import (directive : ImportDirective)
  | UseNamespace (expression : Expression δ)
  | VariableDefinition (definition : VariableDefinition δ)
  | FunctionDefinition (definition : FunctionDefinition δ)
  | ConstructorDefinition (definition : ConstructorDefinition δ)
  | GetterDefinition (definition : GetterDefinition δ)
  | SetterDefinition (definition : SetterDefinition δ)
  | TypeDefinition (definition : TypeDefinition δ)
  | ClassDefinition (definition : ClassDefinition δ)
  | EnumDefinition (definition : EnumDefinition δ)
  | InterfaceDefinition (definition : InterfaceDefinition δ)
  | NamespaceDefinition (definition : NamespaceDefinition δ)

/-- `Directive` (ast.rs:523-527): the one-level unfolding of the directive
knot, a directive whose sub-directives are `δ`. -/
structure Directive (δ : Type) where
  location : Location
  kind : DirectiveKind δ

/-- `PackageDefinition` (ast.rs:784-790). -/
structure PackageDefinition (δ : Type) where
  asdoc : Option (AsDoc δ)
  location : Location
  id : List (String × Location)
  block : Block δ

/-- `Program` (ast.rs:792-796). -/
structure Program (δ : Type) where
  packages : List (PackageDefinition δ)
  directives : List δ

/-- The `attribute` field of `QualifiedIdentifier`. -/
def QualifiedIdentifier.«attribute» {δ : Type} : QualifiedIdentifier δ → Bool
  | QualifiedIdentifier.mk a _ _ => a

/-- The `qualifier` field of `QualifiedIdentifier`. -/
def QualifiedIdentifier.qualifier {δ : Type} : QualifiedIdentifier δ → Option (Expression δ)
  | QualifiedIdentifier.mk _ q _ => q

/-- The `name` field of `QualifiedIdentifier`. -/
def QualifiedIdentifier.name {δ : Type} : QualifiedIdentifier δ → IdentifierOrBrackets δ
  | QualifiedIdentifier.mk _ _ n => n

/-- `QualifiedIdentifier::to_identifier` (ast.rs:13-22): `None` when the
identifier is an attribute or has a qualifier; otherwise the plain name and
location when the name is a static identifier other than `"*"`. -/
def QualifiedIdentifier.to_identifier {δ : Type} (self : QualifiedIdentifier δ) :
    Option (String × Location) :=
  match self with
  | QualifiedIdentifier.mk attr qualifier name =>
    if attr || qualifier.isSome then
      none
    else
      match name with
      | IdentifierOrBrackets.Id id location =>
        if id ≠ "*" then some (id, location) else none
      | _ => none

/-- `ObjectKey::to_record_destructuring_key` (ast.rs:254-261). -/
def ObjectKey.to_record_destructuring_key {δ : Type} :
    ObjectKey δ → RecordDestructuringKey δ
  | ObjectKey.Id id => RecordDestructuringKey.Id id
  | ObjectKey.String string location => RecordDestructuringKey.String string location
  | ObjectKey.Number number location => RecordDestructuringKey.Number number location
  | ObjectKey.Brackets exp => RecordDestructuringKey.Brackets exp

/-- C1: contrary to the claim that `add_one` yields the next *tighter*
level (rank + 1, absent exactly at rank 17, ` Postfix`), the code computes
`from_u32(rank - 1)`, the next *looser* level, absent exactly at rank 1
(`List`): evaluated at `Unary` it yields `Exponentiation` (rank 15)
rather than the claimed ` Postfix` (rank 17), at ` Postfix` it yields
`some Unary` rather than the claimed `none`, and at `List` it yields
`none`. -/
theorem add_one_subtracts_one_rank :
    OperatorPrecedence.add_one OperatorPrecedence.Unary
      = some OperatorPrecedence.Exponentiation
    ∧ OperatorPrecedence.add_one OperatorPrecedence.Postfix
      = some OperatorPrecedence.Unary
    ∧ OperatorPrecedence.add_one OperatorPrecedence.List = none := by
  decide

/-- C7: `may_be_followed_by a b` is true exactly when the numeric rank of
`a` (Required = 1, Optional = 2, Rest = 3) is at most that of `b`; it is
false exactly when a required parameter would follow an optional or rest
parameter or an optional parameter would follow a rest parameter; and
every kind may be followed by itself. -/
theorem may_be_followed_by_iff :
    ∀ a b : FunctionParamKind,
      (FunctionParamKind.may_be_followed_by a b = true ↔ a.toU32 ≤ b.toU32)
    ∧ (FunctionParamKind.may_be_followed_by a b = false ↔
        ((b = FunctionParamKind.Required
            ∧ (a = FunctionParamKind.Optional ∨ a = FunctionParamKind.Rest))
         ∨ (b = FunctionParamKind.Optional ∧ a = FunctionParamKind.Rest)))
    ∧ FunctionParamKind.may_be_followed_by a a = true := by
  intro a b
  cases a <;> cases b <;> decide

/-- Witness for C7: evaluated concretely, a rest parameter may be followed
by a rest parameter, via the rank characterization `3 ≤ 3`. -/
theorem may_be_followed_by_iff_witness :
    FunctionParamKind.may_be_followed_by FunctionParamKind.Rest FunctionParamKind.Rest
      = true :=
  (may_be_followed_by_iff FunctionParamKind.Rest FunctionParamKind.Rest).1.mpr
    (by decide)

/-- C8: `to_record_destructuring_key` maps each `ObjectKey` variant to the
`RecordDestructuringKey` variant of the same name with equal payload. -/
theorem to_record_destructuring_key_spec {δ : Type} :
    (∀ id : NonAttributeQualifiedIdentifier δ,
       (ObjectKey.Id id).to_record_destructuring_key = RecordDestructuringKey.Id id)
    ∧ (∀ (s : String) (loc : Location),
       ObjectKey.to_record_destructuring_key (ObjectKey.String s loc : ObjectKey δ)
         = RecordDestructuringKey.String s loc)
    ∧ (∀ (n : Float) (loc : Location),
       ObjectKey.to_record_destructuring_key (ObjectKey.Number n loc : ObjectKey δ)
         = RecordDestructuringKey.Number n loc)
    ∧ (∀ e : Expression δ,
       (ObjectKey.Brackets e).to_record_destructuring_key
         = RecordDestructuringKey.Brackets e) :=
  ⟨fun _ => rfl, fun _ _ => rfl, fun _ _ => rfl, fun _ => rfl⟩

/-- C10: `Parser::new` initializes both cursor slots to the end-of-file
token located at line 1, offset 0, stores the given tokenizer state
untouched, and requests no token (it takes no scanning operation at all);
the current token is therefore `Eof` until the first advance. -/
theorem parser_new_initial_state {σ : Type} (ts : σ) :
    (Parser.new σ ts).previous_token = (Token.Eof, Location.mk 1 0 0)
    ∧ (Parser.new σ ts).token = (Token.Eof, Location.mk 1 0 0)
    ∧ (Parser.new σ ts).tokenizer = ts
    ∧ Location.with_line_and_offset 1 0 = Location.mk 1 0 0 :=
  ⟨rfl, rfl, rfl, rfl⟩

/-- C3: `to_identifier` returns `some (name, location)` exactly when the
qualified identifier carries no attribute marker, no qualifier, and a
static-identifier name other than `"*"`, and then the returned name and
location are the ones stored in the `name` field. -/
theorem to_identifier_iff {δ : Type} (q : QualifiedIdentifier δ)
    (id : String) (loc : Location) :
    q.to_identifier = some (id, loc)
      ↔ q.«attribute» = false ∧ q.qualifier = none
        ∧ q.name = IdentifierOrBrackets.Id id loc ∧ id ≠ "*" := by
  obtain ⟨attr, qual, nm⟩ := q
  cases attr <;> rcases qual with _ | e <;> rcases nm with ⟨id0, loc0⟩ | e2 <;>
    simp only [QualifiedIdentifier.to_identifier, QualifiedIdentifier.«attribute»,
               QualifiedIdentifier.qualifier, QualifiedIdentifier.name] <;>
    aesop

/-- Witness for C3: the plain identifier `x` (no attribute, no qualifier)
simplifies to its name and location. -/
theorem to_identifier_iff_witness :
    QualifiedIdentifier.to_identifier
        (QualifiedIdentifier.mk false none
           (IdentifierOrBrackets.Id "x" (Location.mk 1 0 1)) : QualifiedIdentifier Unit)
      = some ("x", Location.mk 1 0 1) :=
  (to_identifier_iff _ "x" (Location.mk 1 0 1)).mpr ⟨rfl, rfl, rfl, by decide⟩

/-- C6: `consume(t)` advances through `next` and yields `true` when the
current token equals `t`; otherwise it yields `false` with the whole
parser state (both cursor slots, tokenizer, diagnostics) untouched and no
diagnostic written. -/
theorem consume_spec {σ : Type} (M : TokenizerModel σ) (t : Token) (p : Parser σ) :
    (p.token.fst = t →
       Parser.consume M t p
         = ((Parser.next M true p).fst,
            Except.map (fun _ => true) (Parser.next M true p).snd))
    ∧ (p.token.fst ≠ t → Parser.consume M t p = (p, Except.ok false)) := by
  constructor
  · intro h
    rcases hn : Parser.next M true p with ⟨p1, r⟩
    cases r with
    | ok u => cases u; simp [Parser.consume, h, hn, Except.map]
    | error e => simp [Parser.consume, h, hn, Except.map]
  · intro h
    simp [Parser.consume, h]

/-- Witness for C6: consuming a matching `>` advances (previous slot takes
the old current token, the tokenizer supplies the next one) and returns
true; consuming a non-matching `>=` changes nothing and returns false. -/
theorem consume_spec_witness :
    Parser.consume listTok Token.Gt
        { tokenizer := [(Token.Comma, Location.mk 1 2 2)],
          previous_token := (Token.Eof, Location.mk 1 0 0),
          token := (Token.Gt, Location.mk 1 1 1), diagnostics := [] }
      = ({ tokenizer := [], previous_token := (Token.Gt, Location.mk 1 1 1),
           token := (Token.Comma, Location.mk 1 2 2), diagnostics := [] },
         Except.ok true)
    ∧ Parser.consume listTok Token.Ge
        { tokenizer := [], previous_token := (Token.Eof, Location.mk 1 0 0),
          token := (Token.Gt, Location.mk 1 1 1), diagnostics := [] }
      = ({ tokenizer := [], previous_token := (Token.Eof, Location.mk 1 0 0),
           token := (Token.Gt, Location.mk 1 1 1), diagnostics := [] },
         Except.ok false) :=
  ⟨(consume_spec listTok Token.Gt
      { tokenizer := [(Token.Comma, Location.mk 1 2 2)],
        previous_token := (Token.Eof, Location.mk 1 0 0),
        token := (Token.Gt, Location.mk 1 1 1), diagnostics := [] }).1 rfl,
   (consume_spec listTok Token.Ge
      { tokenizer := [], previous_token := (Token.Eof, Location.mk 1 0 0),
        token := (Token.Gt, Location.mk 1 1 1), diagnostics := [] }).2 (by decide)⟩

/-- C5: a failing `expect(t)` appends exactly one syntax-error diagnostic
`Expected[wanted, actual]` at the current token's location, fails, and
leaves both cursor slots and the tokenizer unchanged; a failing
`expect_identifier` does likewise with `ExpectedIdentifier[actual]`. -/
theorem expect_failure_writes_one_diagnostic {σ : Type} (M : TokenizerModel σ)
    (t : Token) (rw : Bool) (p : Parser σ) :
    (p.token.fst ≠ t →
       Parser.expect M t p
         = ({ p with diagnostics := p.diagnostics
                ++ [Diagnostic.mk p.token.snd DiagnosticSeverity.SyntaxError
                      DiagnosticKind.Expected
                      [DiagnosticArgument.Token t,
                       DiagnosticArgument.Token p.token.fst]] },
            Except.error ParserFailure.mk))
    ∧ ((∀ id, p.token.fst ≠ Token.Identifier id) →
       (rw = true → Token.keyword_name p.token.fst = none) →
       Parser.expect_identifier M rw p
         = ({ p with diagnostics := p.diagnostics
                ++ [Diagnostic.mk p.token.snd DiagnosticSeverity.SyntaxError
                      DiagnosticKind.ExpectedIdentifier
                      [DiagnosticArgument.Token p.token.fst]] },
            Except.error ParserFailure.mk)) := by
  constructor
  · intro h
    simp [Parser.expect, h, Parser.add_syntax_error, Diagnostic.new_syntax_error]
  · intro hid hkw
    cases htok : p.token.fst <;>
      first
        | exact absurd htok (hid _)
        | (cases rw <;>
            simp_all [Parser.expect_identifier, Token.keyword_name,
                      Parser.add_syntax_error, Diagnostic.new_syntax_error])

/-- Witness for C5: with the current token `,` (neither `>` nor an
identifier nor a reserved word), `expect(Gt)` and `expect_identifier(true)`
each append their single diagnostic and fail, leaving the cursor as it
was. -/
theorem expect_failure_writes_one_diagnostic_witness :
    Parser.expect listTok Token.Gt
        { tokenizer := [], previous_token := (Token.Eof, Location.mk 1 0 0),
          token := (Token.Comma, Location.mk 1 9 9), diagnostics := [] }
      = ({ tokenizer := [], previous_token := (Token.Eof, Location.mk 1 0 0),
           token := (Token.Comma, Location.mk 1 9 9),
           diagnostics := [Diagnostic.mk (Location.mk 1 9 9)
             DiagnosticSeverity.SyntaxError DiagnosticKind.Expected
             [DiagnosticArgument.Token Token.Gt, DiagnosticArgument.Token Token.Comma]] },
         Except.error ParserFailure.mk)
    ∧ Parser.expect_identifier listTok true
        { tokenizer := [], previous_token := (Token.Eof, Location.mk 1 0 0),
          token := (Token.Comma, Location.mk 1 9 9), diagnostics := [] }
      = ({ tokenizer := [], previous_token := (Token.Eof, Location.mk 1 0 0),
           token := (Token.Comma, Location.mk 1 9 9),
           diagnostics := [Diagnostic.mk (Location.mk 1 9 9)
             DiagnosticSeverity.SyntaxError DiagnosticKind.ExpectedIdentifier
             [DiagnosticArgument.Token Token.Comma]] },
         Except.error ParserFailure.mk) :=
  ⟨(expect_failure_writes_one_diagnostic listTok Token.Gt true
      { tokenizer := [], previous_token := (Token.Eof, Location.mk 1 0 0),
        token := (Token.Comma, Location.mk 1 9 9), diagnostics := [] }).1 (by decide),
   (expect_failure_writes_one_diagnostic listTok Token.Gt true
      { tokenizer := [], previous_token := (Token.Eof, Location.mk 1 0 0),
        token := (Token.Comma, Location.mk 1 9 9), diagnostics := [] }).2
     (fun id => by simp) (fun _ => rfl)⟩

/-- C9: every advance (`next`, `next_ie_xml_tag`, `next_ie_xml_content`)
copies the current pair into the previous slot, and on a successful scan
the current slot becomes exactly the scanned pair (with the diagnostics
untouched), so the cursor keeps one token of trailing history. -/
theorem advance_updates_history {σ : Type} (M : TokenizerModel σ)
    (rw : Bool) (p : Parser σ) :
    ((Parser.next M rw p).fst.previous_token = p.token
     ∧ (Parser.next_ie_xml_tag M p).fst.previous_token = p.token
     ∧ (Parser.next_ie_xml_content M p).fst.previous_token = p.token)
    ∧ (∀ tok ts, M.scan_ie_div p.tokenizer rw = (Except.ok tok, ts) →
        Parser.next M rw p
          = ({ p with previous_token := p.token, token := tok, tokenizer := ts },
             Except.ok ()))
    ∧ (∀ tok ts, M.scan_ie_xml_tag p.tokenizer = (Except.ok tok, ts) →
        Parser.next_ie_xml_tag M p
          = ({ p with previous_token := p.token, token := tok, tokenizer := ts },
             Except.ok ()))
    ∧ (∀ tok ts, M.scan_ie_xml_content p.tokenizer = (Except.ok tok, ts) →
        Parser.next_ie_xml_content M p
          = ({ p with previous_token := p.token, token := tok, tokenizer := ts },
             Except.ok ())) := by
  refine ⟨⟨?_, ?_, ?_⟩, ?_, ?_, ?_⟩
  · rcases h : M.scan_ie_div p.tokenizer rw with ⟨r, ts⟩
    cases r <;> simp [Parser.next, h]
  · rcases h : M.scan_ie_xml_tag p.tokenizer with ⟨r, ts⟩
    cases r <;> simp [Parser.next_ie_xml_tag, h]
  · rcases h : M.scan_ie_xml_content p.tokenizer with ⟨r, ts⟩
    cases r <;> simp [Parser.next_ie_xml_content, h]
  · intro tok ts h
    simp [Parser.next, h]
  · intro tok ts h
    simp [Parser.next_ie_xml_tag, h]
  · intro tok ts h
    simp [Parser.next_ie_xml_content, h]

/-- Witness for C9: advancing over a one-token stream moves the old
current token `,` into the previous slot and the scanned `>` into the
current slot. -/
theorem advance_updates_history_witness :
    Parser.next listTok true
        { tokenizer := [(Token.Gt, Location.mk 1 4 4)],
          previous_token := (Token.Eof, Location.mk 1 0 0),
          token := (Token.Comma, Location.mk 1 1 1), diagnostics := [] }
      = ({ tokenizer := [], previous_token := (Token.Comma, Location.mk 1 1 1),
           token := (Token.Gt, Location.mk 1 4 4), diagnostics := [] },
         Except.ok ()) :=
  (advance_updates_history listTok true
      { tokenizer := [(Token.Gt, Location.mk 1 4 4)],
        previous_token := (Token.Eof, Location.mk 1 0 0),
        token := (Token.Comma, Location.mk 1 1 1), diagnostics := [] }).2.1
    (Token.Gt, Location.mk 1 4 4) [] rfl

/-- C2: `expect_generics_gt` consumes a lone `>` through the ordinary
advance; for each compound token starting with `>` it succeeds in place,
replacing the current token by the remainder after peeling the leading `>`
(`>=`→`=`, `>>`→`>`, `>>=`→`>=`, `>>>`→`>>`, `>>>=`→`>>=`) and advancing
`first_offset` by one, touching neither the previous slot, the tokenizer,
nor the diagnostics; for any other token it records an Expected-`>`
diagnostic and fails. -/
theorem expect_generics_gt_spec {σ : Type} (M : TokenizerModel σ) (p : Parser σ) :
    (p.token.fst = Token.Gt →
       Parser.expect_generics_gt M p = Parser.next M true p)
    ∧ (p.token.fst = Token.Ge →
       Parser.expect_generics_gt M p
         = ({ p with token := (Token.Assign,
               { p.token.snd with first_offset := p.token.snd.first_offset + 1 }) },
            Except.ok ()))
    ∧ (p.token.fst = Token.RightShift →
       Parser.expect_generics_gt M p
         = ({ p with token := (Token.Gt,
               { p.token.snd with first_offset := p.token.snd.first_offset + 1 }) },
            Except.ok ()))
    ∧ (p.token.fst = Token.RightShiftAssign →
       Parser.expect_generics_gt M p
         = ({ p with token := (Token.Ge,
               { p.token.snd with first_offset := p.token.snd.first_offset + 1 }) },
            Except.ok ()))
    ∧ (p.token.fst = Token.UnsignedRightShift →
       Parser.expect_generics_gt M p
         = ({ p with token := (Token.RightShift,
               { p.token.snd with first_offset := p.token.snd.first_offset + 1 }) },
            Except.ok ()))
    ∧ (p.token.fst = Token.UnsignedRightShiftAssign →
       Parser.expect_generics_gt M p
         = ({ p with token := (Token.RightShiftAssign,
               { p.token.snd with first_offset := p.token.snd.first_offset + 1 }) },
            Except.ok ()))
    ∧ (p.token.fst ∉ ([Token.Gt, Token.Ge, Token.RightShift, Token.RightShiftAssign,
                       Token.UnsignedRightShift, Token.UnsignedRightShiftAssign] : List Token) →
       Parser.expect_generics_gt M p
         = ({ p with diagnostics := p.diagnostics
                ++ [Diagnostic.mk p.token.snd DiagnosticSeverity.SyntaxError
                      DiagnosticKind.Expected
                      [DiagnosticArgument.Token Token.Gt,
                       DiagnosticArgument.Token p.token.fst]] },
            Except.error ParserFailure.mk)) := by
  refine ⟨?_, ?_, ?_, ?_, ?_, ?_, ?_⟩ <;> intro h
  · simp [Parser.expect_generics_gt, h]
  · simp [Parser.expect_generics_gt, h]
  · simp [Parser.expect_generics_gt, h]
  · simp [Parser.expect_generics_gt, h]
  · simp [Parser.expect_generics_gt, h]
  · simp [Parser.expect_generics_gt, h]
  · cases htok : p.token.fst <;>
      simp_all [Parser.expect_generics_gt, Parser.expect,
                Parser.add_syntax_error, Diagnostic.new_syntax_error]

/-- Witness for C2: facing `>>` at offsets 5..7, the operation succeeds in
place, leaving a `>` token whose span starts one character later, with the
previous slot, tokenizer and diagnostics untouched. -/
theorem expect_generics_gt_spec_witness :
    Parser.expect_generics_gt listTok
        { tokenizer := [], previous_token := (Token.Eof, Location.mk 1 0 0),
          token := (Token.RightShift, Location.mk 1 5 7), diagnostics := [] }
      = ({ tokenizer := [], previous_token := (Token.Eof, Location.mk 1 0 0),
           token := (Token.Gt, Location.mk 1 6 7), diagnostics := [] },
         Except.ok ()) :=
  (expect_generics_gt_spec listTok
      { tokenizer := [], previous_token := (Token.Eof, Location.mk 1 0 0),
        token := (Token.RightShift, Location.mk 1 5 7), diagnostics := [] }).2.2.1 rfl

/-- C4 (amended): `expect_context_keyword(name)` succeeds and advances
exactly on an identifier token spelled `name`; otherwise it appends one
syntax-error diagnostic of kind `Expected` carrying the wanted text and
the actual token (not of kind `ExpectedKeyword`) and fails;
`consume_context_keyword(name)` matches the same condition but returns
false with no diagnostic and no cursor change on mismatch. -/
theorem context_keyword_ops {σ : Type} (M : TokenizerModel σ)
    (name : String) (p : Parser σ) :
    (p.token.fst = Token.Identifier name →
       Parser.expect_context_keyword M name p = Parser.next M true p
       ∧ Parser.consume_context_keyword M name p
           = ((Parser.next M true p).fst,
              Except.map (fun _ => true) (Parser.next M true p).snd))
    ∧ (p.token.fst ≠ Token.Identifier name →
       Parser.expect_context_keyword M name p
         = ({ p with diagnostics := p.diagnostics
                ++ [Diagnostic.mk p.token.snd DiagnosticSeverity.SyntaxError
                      DiagnosticKind.Expected
                      [DiagnosticArgument.String name,
                       DiagnosticArgument.Token p.token.fst]] },
            Except.error ParserFailure.mk)
       ∧ Parser.consume_context_keyword M name p = (p, Except.ok false)) := by
  constructor
  · intro h
    constructor
    · simp [Parser.expect_context_keyword, h]
    · rcases hn : Parser.next M true p with ⟨p1, r⟩
      cases r with
      | ok u => cases u; simp [Parser.consume_context_keyword, h, hn, Except.map]
      | error e => simp [Parser.consume_context_keyword, h, hn, Except.map]
  · intro h
    constructor
    · cases htok : p.token.fst <;>
        simp_all [Parser.expect_context_keyword,
                  Parser.add_syntax_error, Diagnostic.new_syntax_error]
    · cases htok : p.token.fst <;>
        simp_all [Parser.consume_context_keyword]

/-- Counterexample for C4: with current token `>` and wanted spelling
`get`, the single diagnostic `expect_context_keyword` records has kind
`Expected` (with a string argument), not the claimed `ExpectedKeyword`. -/
theorem expect_context_keyword_kind_counterexample :
    (Parser.expect_context_keyword listTok "get"
        { tokenizer := [], previous_token := (Token.Eof, Location.mk 1 0 0),
          token := (Token.Gt, Location.mk 1 3 3), diagnostics := [] }).fst.diagnostics
      = [Diagnostic.mk (Location.mk 1 3 3) DiagnosticSeverity.SyntaxError
           DiagnosticKind.Expected
           [DiagnosticArgument.String "get", DiagnosticArgument.Token Token.Gt]]
    ∧ DiagnosticKind.Expected ≠ DiagnosticKind.ExpectedKeyword :=
  ⟨rfl, by decide⟩

/-- Witness for C4: matching the identifier `get` advances through the
tokenizer; facing the identifier `set` instead, `consume_context_keyword`
returns false and changes nothing. -/
theorem context_keyword_ops_witness :
    Parser.expect_context_keyword listTok "get"
        { tokenizer := [(Token.Assign, Location.mk 1 4 4)],
          previous_token := (Token.Eof, Location.mk 1 0 0),
          token := (Token.Identifier "get", Location.mk 1 0 2), diagnostics := [] }
      = ({ tokenizer := [],
           previous_token := (Token.Identifier "get", Location.mk 1 0 2),
           token := (Token.Assign, Location.mk 1 4 4), diagnostics := [] },
         Except.ok ())
    ∧ Parser.consume_context_keyword listTok "get"
        { tokenizer := [], previous_token := (Token.Eof, Location.mk 1 0 0),
          token := (Token.Identifier "set", Location.mk 1 0 2), diagnostics := [] }
      = ({ tokenizer := [], previous_token := (Token.Eof, Location.mk 1 0 0),
           token := (Token.Identifier "set", Location.mk 1 0 2), diagnostics := [] },
         Except.ok false) :=
  ⟨((context_keyword_ops listTok "get"
      { tokenizer := [(Token.Assign, Location.mk 1 4 4)],
        previous_token := (Token.Eof, Location.mk 1 0 0),
        token := (Token.Identifier "get", Location.mk 1 0 2),
        diagnostics := [] }).1 rfl).1,
   ((context_keyword_ops listTok "get"
      { tokenizer := [], previous_token := (Token.Eof, Location.mk 1 0 0),
        token := (Token.Identifier "set", Location.mk 1 0 2),
        diagnostics := [] }).2 (by decide)).2⟩

end As3
